import Mathlib

/-!
Verification of the BizBoard appointment-scheduling subsystem.

This file is a shallow embedding of the scheduling core found in the
repository's backend:

* the `Booking` mongoose model (`backend/models/Booking.js`, the booking
  schema with its `pre('save')` conflict hook, `checkConflicts`,
  `getAvailableTimeSlots` and `reschedule`),
* the booking routes (`backend/routes/bookings.js`: create, update/status,
  reschedule) and the public booking route (`backend/routes/public.js`),
* the rule-based recommendation engine (`backend/services/aiService.js`),
* the `User` model's `businessHours` template (`backend/models/User.js`).

Modelling conventions:

* All instants are whole minutes since an epoch (`Nat`).  Every time value
  the code manipulates is a whole minute: `time` strings are `HH:MM`,
  durations are integer minutes, and derived datetimes are built with
  `setHours(h, m, 0, 0)` / `+ duration * 60000`.
* A JS `Date`-valued document field that may be *unset* (never assigned)
  is an `Option Nat`; `none` models `undefined`.  MongoDB serialises an
  `undefined` query operand as `null`, and comparison operators are
  type-bracketed: a `Date`-valued field never satisfies `$lt/$gt/$lte/$gte`
  against `null`, while a `null`-valued field satisfies only the non-strict
  `$lte/$gte null`.  The `mongoLe`/`mongoLt`/`mongoGe`/`mongoGt` functions
  below encode exactly that.
* Mongoose runs schema validation before user-defined `pre('save')`
  middleware (the built-in `validateBeforeSave` hook is unshifted to the
  head of the pre-save chain), so required paths are checked on the
  document as it stands *before* the booking schema's own pre-save hook.
* Assigning a document path marks it modified only when the assigned
  value differs from the stored one (mongoose's deep-equal check skips
  marking on equal values), and in-place `Date` mutations
  (`setHours`/`setMinutes`) are invisible to mongoose's change tracking.
  The `ModifiedFlags` record carries the marks as they stand on entry to
  `save`; the pre-save hook's own two assignments contribute the
  `hookStartMark`/`hookEndMark` comparisons, taken at the values each
  assignment actually writes (before the untracked in-place mutation).
* Display-only schema fields that no modelled operation reads (`notes`,
  `paymentStatus`, `paymentMethod`, `calendarColor`, `isAllDay`,
  `timezone`, recurrence fields) are omitted from the record.
-/

deriving instance DecidableEq for Except

/-- Booking lifecycle status (`status` enum of the booking schema). -/
inductive Status where
  | pending
  | confirmed
  | inProgress
  | completed
  | cancelled
deriving DecidableEq, Repr

/-- `status: { $in: ['pending', 'confirmed', 'in-progress'] }`, the status
filter used by `checkConflicts` and `getAvailableTimeSlots`. -/
def Status.isActive : Status → Bool
  | .pending => true
  | .confirmed => true
  | .inProgress => true
  | _ => false

/-- Who performed a reschedule (`rescheduledBy` enum). -/
inductive Rescheduler where
  | user
  | customer
  | system
deriving DecidableEq, Repr

/-- The booking document (booking schema of `models/Booking.js`).
`startDateTime` / `endDateTime` are `required` in the schema but are only
computed inside the `pre('save')` hook, so an in-memory document that has
not been saved yet carries `none` there. -/
structure Booking where
  id : Nat
  userId : Nat
  customerId : Nat
  serviceId : Nat
  /-- `date : Date` — minutes since epoch; may carry a time-of-day part. -/
  date : Nat
  /-- `time : String` (`HH:MM`) — minutes after midnight. -/
  time : Nat
  /-- `duration : Number`, minutes, schema minimum 15. -/
  duration : Nat
  status : Status
  totalAmount : Nat
  startDateTime : Option Nat
  endDateTime : Option Nat
  hasConflicts : Bool := false
  conflictsWith : List Nat := []
  originalStartDateTime : Option Nat := none
  originalEndDateTime : Option Nat := none
  rescheduledAt : Option Nat := none
  rescheduledBy : Option Rescheduler := none
  rescheduleReason : Option String := none
deriving DecidableEq, Repr

/-- The customer projection touched by booking creation
(`totalBookings` / `lastBooking` of `models/Customer.js`). -/
structure Customer where
  id : Nat
  userId : Nat
  totalBookings : Nat
  lastBooking : Option Nat
deriving DecidableEq, Repr

/-- The slice of a service document that booking creation copies onto the
booking (`duration`, `price`). -/
structure Service where
  id : Nat
  userId : Nat
  duration : Nat
  price : Nat
deriving DecidableEq, Repr

/-- One day's entry of `User.businessHours`: the schema declares exactly
`start : String`, `end : String` (both optional) and
`isOpen : Boolean`.  `stop` models the schema's `end` field (a Lean
keyword). -/
structure DayHours where
  start : Option Nat
  stop : Option Nat
  isOpen : Bool
deriving DecidableEq, Repr

/-- `User.businessHours`: one `DayHours` subdocument per weekday.  The
subdocuments always exist on a saved user (the `isOpen` defaults
materialise the nested object). -/
structure BusinessHours where
  sunday : DayHours
  monday : DayHours
  tuesday : DayHours
  wednesday : DayHours
  thursday : DayHours
  friday : DayHours
  saturday : DayHours
deriving DecidableEq, Repr

/-- `['sunday', …, 'saturday'][date.getDay()]` — index 0 is Sunday. -/
def BusinessHours.day (bh : BusinessHours) : Nat → DayHours
  | 0 => bh.sunday
  | 1 => bh.monday
  | 2 => bh.tuesday
  | 3 => bh.wednesday
  | 4 => bh.thursday
  | 5 => bh.friday
  | _ => bh.saturday

/-- The slice of the user (provider) document the scheduling core reads. -/
structure User where
  id : Nat
  businessHours : BusinessHours
deriving DecidableEq, Repr

/-- Midnight of the day containing instant `d` (`setHours(0,0,0,0)`). -/
def dayStart (d : Nat) : Nat := d - d % 1440

/-- `date.getDay()`: day of week, 0 = Sunday.  The Unix epoch fell on a
Thursday (= 4). -/
def dayOfWeek (d : Nat) : Nat := (d / 1440 + 4) % 7

/-- MongoDB `field ≤ operand` (`$lte`) under type bracketing: both values
present and ordered, or both `null`. -/
def mongoLe : Option Nat → Option Nat → Bool
  | some a, some b => a ≤ b
  | none, none => true
  | _, _ => false

/-- MongoDB `field ≥ operand` (`$gte`). -/
def mongoGe : Option Nat → Option Nat → Bool
  | some a, some b => b ≤ a
  | none, none => true
  | _, _ => false

/-- MongoDB `field < operand` (`$lt`): strict comparisons never match
`null` on either side. -/
def mongoLt : Option Nat → Option Nat → Bool
  | some a, some b => a < b
  | _, _ => false

/-- MongoDB `field > operand` (`$gt`). -/
def mongoGt : Option Nat → Option Nat → Bool
  | some a, some b => b < a
  | _, _ => false

/-- The `$or` of four overlap cases in `checkConflicts`, on plain minute
values: `(os, oe)` is the stored (existing) booking's interval, `(s, e)`
the querying booking's interval.  Case order and strictness follow the
source: starts-during, ends-during, new-contains-existing,
existing-contains-new. -/
def overlapCases (os oe s e : Nat) : Bool :=
  (os ≤ s && s < oe) || (os < e && e ≤ oe) || (s ≤ os && oe ≤ e) || (os ≤ s && e ≤ oe)

/-- The same `$or`, as executed against possibly-unset query operands
`qs = this.startDateTime`, `qe = this.endDateTime`. -/
def conflictCase (o : Booking) (qs qe : Option Nat) : Bool :=
  (mongoLe o.startDateTime qs && mongoGt o.endDateTime qs) ||
  (mongoLt o.startDateTime qe && mongoGe o.endDateTime qe) ||
  (mongoGe o.startDateTime qs && mongoLe o.endDateTime qe) ||
  (mongoLe o.startDateTime qs && mongoGe o.endDateTime qe)

/-- `bookingSchema.methods.checkConflicts`: the provider's other bookings
with status in `['pending','confirmed','in-progress']` matching the
four-case overlap `$or` against `this.startDateTime` / `this.endDateTime`.
`db` is the booking collection. -/
def checkConflicts (db : List Booking) (uid id : Nat) (qs qe : Option Nat) : List Booking :=
  db.filter fun o => o.userId == uid && o.id != id && o.status.isActive && conflictCase o qs qe

/-- Modelled from the spec: `TimeInterval`, a half-open interval
`[start, stop)` (the spec's field `end` is a Lean keyword). -/
structure TimeInterval where
  start : Nat
  stop : Nat
deriving DecidableEq, Repr

/-- Modelled from the spec (§4.1): `overlaps(a, b)` is true iff
`a.start < b.end AND b.start < a.end`. -/
def specOverlaps (a b : TimeInterval) : Bool :=
  a.start < b.stop && b.start < a.stop

/-- Half-open overlap of a stored booking's interval with `[s, e)`; false
when the stored fields are unset. -/
def bookingOverlaps (o : Booking) (s e : Nat) : Bool :=
  match o.startDateTime, o.endDateTime with
  | some os, some oe => s < oe && os < e
  | _, _ => false

/-- Schema validation of a booking document (the paths that can actually
fail in the model): `time` must match `HH:MM` (i.e. be a valid minute of
the day), `duration` has minimum 15, and `startDateTime` / `endDateTime`
are required.  Returns the offending paths. -/
def validateBooking (b : Booking) : List String :=
  (if 1440 ≤ b.time then ["time"] else []) ++
  (if b.duration < 15 then ["duration"] else []) ++
  (if b.startDateTime.isNone then ["startDateTime"] else []) ++
  (if b.endDateTime.isNone then ["endDateTime"] else [])

/-- Which paths of the document are marked modified on entry to `save`,
plus `isNew`.  A mark is set only by an assignment whose value differs
from the stored one (for a new document, every constructor-set path is
marked). -/
structure ModifiedFlags where
  isNew : Bool
  dateM : Bool
  timeM : Bool
  durationM : Bool
  startM : Bool
  endM : Bool
deriving DecidableEq, Repr

/-- Whether the hook's first assignment,
`this.startDateTime = new Date(this.date)`, marks `startDateTime`
modified: it writes the `date` instant (the following
`setHours(h, m, 0, 0)` mutates the object in place, untracked), so the
path is marked iff that instant differs from the stored
`startDateTime`. -/
def hookStartMark (b : Booking) : Bool :=
  b.startDateTime != some b.date

/-- Whether the hook's second assignment,
`this.endDateTime = new Date(this.startDateTime)`, marks `endDateTime`
modified: by then `startDateTime` holds the recomputed start (the
following `setMinutes(+duration)` is an untracked in-place mutation), so
the path is marked iff that start differs from the stored
`endDateTime`. -/
def hookEndMark (b : Booking) : Bool :=
  b.endDateTime != some (dayStart b.date + b.time)

/-- `bookingSchema.pre('save')`: when `date`, `time` or `duration` is
marked modified, recompute `startDateTime`/`endDateTime` from
`date` + `time` + `duration`; then, if the document is new or
`startDateTime`/`endDateTime` is marked modified — by an earlier
assignment (`f.startM`/`f.endM`) or by the hook's own assignments
(`hookStartMark`/`hookEndMark`; the in-place `Date` mutations never
mark) — refresh the `hasConflicts` / `conflictsWith` cache from
`checkConflicts`.  When nothing marks the datetimes, the recomputed
values are kept but the cache is left as it was. -/
def preSave (db : List Booking) (b : Booking) (f : ModifiedFlags) : Booking :=
  if f.dateM || f.timeM || f.durationM then
    let s := dayStart b.date + b.time
    let b1 := { b with startDateTime := some s, endDateTime := some (s + b.duration) }
    if f.isNew || f.startM || hookStartMark b || f.endM || hookEndMark b then
      let cs := checkConflicts db b1.userId b1.id b1.startDateTime b1.endDateTime
      { b1 with hasConflicts := !cs.isEmpty, conflictsWith := cs.map (·.id) }
    else b1
  else
    if f.isNew || f.startM || f.endM then
      let cs := checkConflicts db b.userId b.id b.startDateTime b.endDateTime
      { b with hasConflicts := !cs.isEmpty, conflictsWith := cs.map (·.id) }
    else b

/-- Failure of a `save()` call. -/
inductive SaveError where
  | validation (fields : List String)
deriving DecidableEq, Repr

/-- `document.save()`: mongoose validates the document first (the built-in
`validateBeforeSave` hook runs ahead of user pre-save middleware), then
runs the booking schema's pre-save hook and persists the result. -/
def save (db : List Booking) (b : Booking) (f : ModifiedFlags) : Except SaveError Booking :=
  if validateBooking b = [] then .ok (preSave db b f)
  else .error (.validation (validateBooking b))

/-- One candidate slot produced by `getAvailableTimeSlots`
(`{ startTime, endTime }`; the derived `timeString` is omitted). -/
structure TimeSlot where
  startTime : Nat
  endTime : Nat
deriving DecidableEq, Repr

/-- The slot loop's conflict test,
`currentTime < booking.endDateTime && slotEndTime > booking.startDateTime`
(a JS comparison against an unset `Date` is false). -/
def slotConflict (current slotEnd : Nat) (b : Booking) : Bool :=
  (match b.endDateTime with | some e => current < e | none => false) &&
  (match b.startDateTime with | some s => s < slotEnd | none => false)

/-- The `while (currentTime < businessEndTime)` loop of
`getAvailableTimeSlots`, stepping 30 minutes; the fuel argument is an
upper bound on the remaining iterations (`slotLoop` supplies a sufficient
one). -/
def slotLoopAux (duration : Nat) (ex : List Booking) (close : Nat) : Nat → Nat → List TimeSlot
  | 0, _ => []
  | fuel + 1, current =>
    if current < close then
      let slotEnd := current + duration
      (if !(ex.any (slotConflict current slotEnd)) && slotEnd ≤ close then
        [⟨current, slotEnd⟩] else []) ++
      slotLoopAux duration ex close fuel (current + 30)
    else []

/-- Walk from `current` to `close` in 30-minute steps, keeping each
candidate of length `duration` that ends by `close` and conflicts with no
booking in `ex`. -/
def slotLoop (current close duration : Nat) (ex : List Booking) : List TimeSlot :=
  slotLoopAux duration ex close (close - current) current

/-- `bookingSchema.statics.getAvailableTimeSlots(userId, date, duration)`.
Returns `[]` when the user is missing or the day is not open; reading the
day's `start`/`end` strings throws when they are unset (`.error ()`,
surfaced as a 400 by the route).  The day's bookings are the provider's
bookings with `startDateTime` inside the day and an active status (the
source also sorts them by `startDateTime`, which the conflict test does
not depend on). -/
def getAvailableTimeSlots (user? : Option User) (db : List Booking) (date duration : Nat) :
    Except Unit (List TimeSlot) :=
  match user? with
  | none => .ok []
  | some u =>
    let dh := u.businessHours.day (dayOfWeek date)
    if !dh.isOpen then .ok []
    else
      match dh.start, dh.stop with
      | some sTod, some eTod =>
        let sod := dayStart date
        let existing := db.filter fun b =>
          b.userId == u.id && mongoGe b.startDateTime (some sod) &&
            mongoLe b.startDateTime (some (sod + 1439)) && b.status.isActive
        .ok (slotLoop (sod + sTod) (sod + eTod) duration existing)
      | _, _ => .error ()

/-- `bookingSchema.methods.reschedule(newStartDateTime, reason,
rescheduledBy)`: stash the current interval in
`originalStartDateTime`/`originalEndDateTime`, set the new interval from
the unchanged `duration`, re-derive `date` (midnight) and `time`, record
the reschedule metadata, and `save()`.  No conflict check is performed
before saving.  Each assignment marks its path modified only when the
new value differs from the stored one. -/
def reschedule (db : List Booking) (b : Booking) (newStart : Nat) (reason : String)
    (actor : Rescheduler) (now : Nat) : Except SaveError Booking :=
  let b1 := { b with
    originalStartDateTime := b.startDateTime
    originalEndDateTime := b.endDateTime
    startDateTime := some newStart
    endDateTime := some (newStart + b.duration)
    date := dayStart newStart
    time := newStart % 1440
    rescheduledAt := some now
    rescheduledBy := some actor
    rescheduleReason := some reason }
  save db b1
    { isNew := false
      dateM := b.date != dayStart newStart
      timeM := b.time != newStart % 1440
      durationM := false
      startM := b.startDateTime != some newStart
      endM := b.endDateTime != some (newStart + b.duration) }

/-- Failure of an authenticated booking route. -/
inductive CreateError where
  | notFound
  | conflict (ids : List Nat)
  | validation (fields : List String)
deriving DecidableEq, Repr

/-- `Customer.findByIdAndUpdate(id, { $inc: { totalBookings: 1 }, lastBooking: new Date() })`. -/
def incrementCustomerStats (c : Customer) (now : Nat) : Customer :=
  { c with totalBookings := c.totalBookings + 1, lastBooking := some now }

/-- `POST /api/bookings` (authenticated create): look up the customer and
service in the user's scope, build the booking with the service's
`duration`/`price` and default `pending` status, call `checkConflicts()`
on the unsaved document (whose `startDateTime`/`endDateTime` are still
unset — they are only computed in the pre-save hook), reject with the
colliding ids if any are found, otherwise `save()` and increment the
customer projection. -/
def createBooking (db : List Booking) (customers : List Customer) (services : List Service)
    (uid newId customerId serviceId date time now : Nat) :
    Except CreateError (Booking × Customer) :=
  match customers.find? (fun c => c.id == customerId && c.userId == uid),
        services.find? (fun s => s.id == serviceId && s.userId == uid) with
  | some customer, some service =>
    let booking : Booking :=
      { id := newId, userId := uid, customerId := customerId,
        serviceId := serviceId, date := date, time := time, duration := service.duration,
        status := .pending, totalAmount := service.price,
        startDateTime := none, endDateTime := none }
    let conflicts := checkConflicts db uid newId booking.startDateTime booking.endDateTime
    if conflicts.isEmpty then
      match save db booking ⟨true, true, true, true, false, false⟩ with
      | .ok saved => .ok (saved, incrementCustomerStats customer now)
      | .error (.validation fs) => .error (.validation fs)
    else .error (.conflict (conflicts.map (·.id)))
  | _, _ => .error .notFound

/-- `PUT /api/bookings/:id` on a loaded booking: when `date` or `time` is
supplied, assign them and run `checkConflicts()` — which still queries the
*loaded* `startDateTime`/`endDateTime`, since those are only recomputed at
save time — rejecting on any hit; then overwrite `status` if supplied (no
transition validation) and `save()`.  An assignment marks its path only
when the supplied value differs from the stored one (re-assigning the old
value, as the `: booking.date` / `|| booking.time` fallbacks do, marks
nothing). -/
def updateBooking (db : List Booking) (b : Booking) (date? time? : Option Nat)
    (status? : Option Status) : Except CreateError Booking :=
  let touched := date?.isSome || time?.isSome
  let b1 := if touched then { b with date := date?.getD b.date, time := time?.getD b.time } else b
  let conflicts :=
    if touched then checkConflicts db b.userId b.id b.startDateTime b.endDateTime else []
  if conflicts.isEmpty then
    let b2 := { b1 with status := status?.getD b1.status }
    let f : ModifiedFlags :=
      { isNew := false
        dateM := match date? with | some d => b.date != d | none => false
        timeM := match time? with | some t => b.time != t | none => false
        durationM := false
        startM := false
        endM := false }
    match save db b2 f with
    | .ok saved => .ok saved
    | .error (.validation fs) => .error (.validation fs)
  else .error (.conflict (conflicts.map (·.id)))

/-- Failure of the public booking route. -/
inductive PublicError where
  | notFound
  | slotTaken
  | validation (fields : List String)
deriving DecidableEq, Repr

/-- `POST /api/public/bookings`: after the business/service lookup, the
conflict check is a `findOne` for a booking of that provider with *the
same `date` and `time` values* and status not in
`['cancelled','completed']`; on a hit reject with "Time slot already
booked" (no colliding ids), otherwise `Booking.create(...)` (which
validates and saves like any save). -/
def createPublicBooking (db : List Booking) (users : List User) (services : List Service)
    (businessId serviceId newId customerId date time : Nat) : Except PublicError Booking :=
  match users.find? (·.id == businessId),
        services.find? (fun s => s.id == serviceId && s.userId == businessId) with
  | some _, some service =>
    match db.find? (fun b => b.userId == businessId && b.date == date && b.time == time &&
        !(b.status == .cancelled) && !(b.status == .completed)) with
    | some _ => .error .slotTaken
    | none =>
      let booking : Booking :=
        { id := newId, userId := businessId, customerId := customerId,
          serviceId := serviceId, date := date, time := time, duration := service.duration,
          status := .pending, totalAmount := service.price,
          startDateTime := none, endDateTime := none }
      match save db booking ⟨true, true, true, true, false, false⟩ with
      | .ok saved => .ok saved
      | .error (.validation fs) => .error (.validation fs)
  | _, _ => .error .notFound

/-- Reading `businessHours.open` in `aiService.generateTimeSlots`: the
`User` schema's day entries define only `start`, `end` and `isOpen`, so
this property is always `undefined` on a stored document. -/
def DayHours.aiOpen (_ : DayHours) : Option Nat := none

/-- Reading `businessHours.close` in `aiService.generateTimeSlots`: not a
schema path, always `undefined` on a stored document. -/
def DayHours.aiClose (_ : DayHours) : Option Nat := none

/-- One slot generated by `aiService.generateTimeSlots`
(`{ time, endTime, minutes, endMinutes }`; `time`/`endTime` are `HH:MM`
strings holding exactly `minutes`/`endMinutes`). -/
structure AiSlot where
  time : Nat
  endTime : Nat
  minutes : Nat
  endMinutes : Nat
deriving DecidableEq, Repr

/-- The `for (minutes = open; minutes + duration <= close; minutes += 30)`
loop of `aiService.generateTimeSlots`; fuel bounds the iterations. -/
def genSlotsAux (dur close : Nat) : Nat → Nat → List AiSlot
  | 0, _ => []
  | fuel + 1, m =>
    if m + dur ≤ close then
      { time := m, endTime := m + dur, minutes := m, endMinutes := m + dur } ::
        genSlotsAux dur close fuel (m + 30)
    else []

/-- `aiService.generateTimeSlots(businessHours, serviceDuration)`: splits
`businessHours.open` / `businessHours.close` — which are `undefined`,
since the schema stores `start`/`end` — so `openTime.split(':')` throws a
`TypeError` (`.error ()`) before the loop ever runs. -/
def generateTimeSlots (dh : DayHours) (dur : Nat) : Except Unit (List AiSlot) :=
  match dh.aiOpen, dh.aiClose with
  | some o, some c => .ok (genSlotsAux dur c (c + 1 - o) o)
  | _, _ => .error ()

/-- The per-factor integer scores of `calculateSlotScore`. -/
structure ScoreFactors where
  availability : Nat
  customerPreference : Nat
  businessOptimal : Nat
  historicalDemand : Nat
  bufferTime : Nat
deriving DecidableEq, Repr

/-- The value returned by `calculateSlotScore`. -/
structure ScoreResult where
  available : Bool
  score : Nat
  factors : ScoreFactors
  reason : String
deriving DecidableEq, Repr

/-- `aiService.calculateSlotScore(slot, existingBookings, customerHistory,
user, service, preferredTime)`.  The availability check reads
`booking.endTime` — not a schema path (the booking stores `endDateTime`) —
so `timeToMinutes(undefined)` throws a `TypeError` as soon as
`existingBookings` is non-empty.  With no existing bookings the factors
are computed as in the source; the buffer checks (which also read
`booking.endTime`) are vacuously clear, giving 10 points. -/
def calculateSlotScore (slot : AiSlot) (existingBookings customerHistory : List Booking)
    (uid : Nat) (db : List Booking) (preferredTime : Option Nat) : Except Unit ScoreResult :=
  match existingBookings with
  | _ :: _ => .error ()
  | [] =>
    let customerPreference :=
      if preferredTime == some slot.time then 30
      else if !customerHistory.isEmpty then
        min 25 (8 * (customerHistory.map (·.time)).count slot.time)
      else 10
    let slotHour := slot.minutes / 60
    let businessOptimal :=
      if 10 ≤ slotHour && slotHour ≤ 14 then 20
      else if 9 ≤ slotHour && slotHour ≤ 16 then 15
      else 5
    let sameTimeBookings :=
      (db.filter fun b => b.userId == uid && b.time == slot.time && b.status == .completed).length
    let factors : ScoreFactors :=
      { availability := 25, customerPreference := customerPreference,
        businessOptimal := businessOptimal,
        historicalDemand := min 15 (3 * sameTimeBookings), bufferTime := 10 }
    let reason :=
      if factors.customerPreference > 20 then "Matches your usual time preference"
      else if factors.businessOptimal > 15 then "Optimal business hours"
      else if factors.bufferTime > 5 then "Good spacing between appointments"
      else "Available slot"
    .ok { available := true,
          score := factors.availability + factors.customerPreference + factors.businessOptimal +
            factors.historicalDemand + factors.bufferTime,
          factors := factors, reason := reason }

/-- One entry of the recommendation list. -/
structure RecEntry where
  time : Nat
  endTime : Nat
  score : Nat
  factors : ScoreFactors
  reason : String
deriving DecidableEq, Repr

/-- Insert `x` into an already-sorted list, keeping it before the first
element it strictly beats under `keep` (stable). -/
def insertSorted (keep : α → α → Bool) (x : α) : List α → List α
  | [] => [x]
  | y :: ys => if keep x y then x :: y :: ys else y :: insertSorted keep x ys

/-- Stable sort with "x may come before y" predicate `keep` (JS
`Array.prototype.sort` is stable). -/
def stableSortBy (keep : α → α → Bool) : List α → List α
  | [] => []
  | x :: xs => insertSorted keep x (stableSortBy keep xs)

/-- The response shape of `getRuleBasedRecommendations` (`type`,
`recommendations`, and whichever of `totalAvailable` / `message` / `error`
the branch sets). -/
structure RecResponse where
  rtype : String
  recommendations : List RecEntry
  totalAvailable : Option Nat
  message : Option String
  errorMsg : Option String
deriving DecidableEq, Repr

/-- The `for (const slot of timeSlots)` scoring loop: an exception from
`calculateSlotScore` aborts the whole loop; otherwise available slots are
pushed. -/
def scoreSlots (slots : List AiSlot) (existingBookings customerHistory : List Booking)
    (uid : Nat) (db : List Booking) (preferredTime : Option Nat) :
    Except Unit (List RecEntry) :=
  match slots with
  | [] => .ok []
  | s :: rest =>
    match calculateSlotScore s existingBookings customerHistory uid db preferredTime with
    | .error e => .error e
    | .ok r =>
      match scoreSlots rest existingBookings customerHistory uid db preferredTime with
      | .error e => .error e
      | .ok tail =>
        .ok (if r.available then
          { time := s.time, endTime := s.endTime, score := r.score,
            factors := r.factors, reason := r.reason } :: tail
        else tail)

/-- `aiService.getRuleBasedRecommendations(user, customer, service,
preferredDate, preferredTime)`: closed days get an empty `rule-based`
response with a message; otherwise the day's non-cancelled bookings
(completed included — the query is `$nin: ['cancelled']`) and the
customer's last five completed bookings are loaded, slots are generated
and scored, sorted descending by score (stable, so ties keep the earlier
start first) and the top 5 returned.  Any exception in the `try` block —
in particular the `TypeError` thrown by `generateTimeSlots` — yields the
`type: 'error'` response with an empty recommendation list. -/
def getRuleBasedRecommendations (db : List Booking) (user : User) (customerId : Nat)
    (serviceDuration : Nat) (targetDate : Nat) (preferredTime : Option Nat) : RecResponse :=
  let dh := user.businessHours.day (dayOfWeek targetDate)
  if !dh.isOpen then
    { rtype := "rule-based", recommendations := [], totalAvailable := none,
      message := some "Business is closed", errorMsg := none }
  else
    let existingBookings := db.filter fun b =>
      b.userId == user.id && b.date == targetDate && !(b.status == .cancelled)
    let customerHistory :=
      (stableSortBy (fun a b => b.date ≤ a.date)
        (db.filter fun b => b.customerId == customerId && b.status == .completed)).take 5
    match generateTimeSlots dh serviceDuration with
    | .error _ =>
      { rtype := "error", recommendations := [], totalAvailable := none,
        message := none, errorMsg := some "Unable to generate recommendations" }
    | .ok slots =>
      match scoreSlots slots existingBookings customerHistory user.id db preferredTime with
      | .error _ =>
        { rtype := "error", recommendations := [], totalAvailable := none,
          message := none, errorMsg := some "Unable to generate recommendations" }
      | .ok recs =>
        { rtype := "rule-based",
          recommendations := (stableSortBy (fun a b => b.score ≤ a.score) recs).take 5,
          totalAvailable := some recs.length, message := none, errorMsg := none }

/-- No two distinct non-cancelled bookings of the same provider have
overlapping (half-open) intervals — the spec's §8 invariant, scanned over
all pairs. -/
def providerNoOverlap (bs : List Booking) : Bool :=
  bs.all fun a => bs.all fun b =>
    !(a.id != b.id && a.userId == b.userId &&
      !(a.status == Status.cancelled) && !(b.status == Status.cancelled) &&
      (match a.startDateTime, a.endDateTime with
       | some s, some e => bookingOverlaps b s e
       | _, _ => false))

/-- Sample provider-1 booking, 10:00–11:00 on day 0, pending. -/
def bkA : Booking :=
  { id := 1, userId := 1, customerId := 7, serviceId := 5, date := 0, time := 600,
    duration := 60, status := .pending, totalAmount := 100,
    startDateTime := some 600, endDateTime := some 660 }

/-- Sample provider-1 booking, 14:00–15:00 on day 0, pending. -/
def bkB : Booking :=
  { id := 2, userId := 1, customerId := 8, serviceId := 5, date := 0, time := 840,
    duration := 60, status := .pending, totalAmount := 100,
    startDateTime := some 840, endDateTime := some 900 }

/-- `bkB` after `reschedule` moves it onto 10:00–11:00: interval replaced,
original interval stashed, metadata recorded, conflict cache set to the
overlap with `bkA` — and saved anyway. -/
def bkBMoved : Booking :=
  { id := 2, userId := 1, customerId := 8, serviceId := 5, date := 0, time := 600,
    duration := 60, status := .pending, totalAmount := 100,
    startDateTime := some 600, endDateTime := some 660,
    hasConflicts := true, conflictsWith := [1],
    originalStartDateTime := some 840, originalEndDateTime := some 900,
    rescheduledAt := some 1000, rescheduledBy := some .user,
    rescheduleReason := some "moved" }

/-- Sample provider-1 booking with stale stored datetimes (10:30 per
`date`/`time`, but `startDateTime` still carries an old value). -/
def bkC : Booking :=
  { id := 3, userId := 1, customerId := 7, serviceId := 5, date := 0, time := 630,
    duration := 60, status := .confirmed, totalAmount := 100,
    startDateTime := some 999, endDateTime := some 1059 }

/-- `bkC` after a save with `date` marked modified: datetimes recomputed to
10:30–11:30, conflict cache set to the overlap with `bkA`. -/
def bkCAfter : Booking :=
  { id := 3, userId := 1, customerId := 7, serviceId := 5, date := 0, time := 630,
    duration := 60, status := .confirmed, totalAmount := 100,
    startDateTime := some 630, endDateTime := some 690,
    hasConflicts := true, conflictsWith := [1] }

/-- Sample provider-1 booking, 09:00–10:00 on day 0, already completed. -/
def bkDone : Booking :=
  { id := 4, userId := 1, customerId := 7, serviceId := 5, date := 0, time := 540,
    duration := 60, status := .completed, totalAmount := 100,
    startDateTime := some 540, endDateTime := some 600 }

/-- Sample provider-1 booking, 09:00–10:00 on day 0, pending. -/
def bkNine : Booking :=
  { id := 6, userId := 1, customerId := 8, serviceId := 5, date := 0, time := 540,
    duration := 60, status := .pending, totalAmount := 100,
    startDateTime := some 540, endDateTime := some 600 }

/-- Sample provider-1 booking, 10:00–11:00 on day 0, pending, with an
empty conflict cache; its `date` field is the plain midnight. -/
def bkSkip : Booking :=
  { id := 8, userId := 1, customerId := 7, serviceId := 5, date := 0, time := 600,
    duration := 60, status := .pending, totalAmount := 100,
    startDateTime := some 600, endDateTime := some 660 }

/-- Sample provider-1 booking, 11:00–12:00 on day 0, pending. -/
def bkEve : Booking :=
  { id := 9, userId := 1, customerId := 8, serviceId := 5, date := 0, time := 660,
    duration := 60, status := .pending, totalAmount := 100,
    startDateTime := some 660, endDateTime := some 720 }

/-- `bkSkip` after a `PUT` that sets `date` to the old start instant (600)
and `time` to 11:00: both hook assignments deep-equal the stored
datetimes, so nothing is marked modified, the conflict-cache refresh is
skipped, and the stale empty cache survives although the recomputed
interval is 11:00–12:00. -/
def bkSkipAfter : Booking :=
  { id := 8, userId := 1, customerId := 7, serviceId := 5, date := 600, time := 660,
    duration := 60, status := .pending, totalAmount := 100,
    startDateTime := some 660, endDateTime := some 720 }

/-- Sample provider-1 confirmed booking 12:00–13:00 on day 0 (the spec's
recommendation example). -/
def bkNoon : Booking :=
  { id := 10, userId := 1, customerId := 8, serviceId := 5, date := 0, time := 720,
    duration := 60, status := .confirmed, totalAmount := 100,
    startDateTime := some 720, endDateTime := some 780 }

/-- Three completed 10:00 bookings of customer 7 on earlier days (the
spec's recommendation example's history). -/
def bkHist (n : Nat) : Booking :=
  { id := 20 + n, userId := 1, customerId := 7, serviceId := 5, date := 1440 * (n + 1),
    time := 600, duration := 60, status := .completed, totalAmount := 100,
    startDateTime := some (1440 * (n + 1) + 600), endDateTime := some (1440 * (n + 1) + 660) }

/-- Sample 60-minute, 100-unit service of provider 1. -/
def svc1 : Service := { id := 5, userId := 1, duration := 60, price := 100 }

/-- Sample customer of provider 1. -/
def cust1 : Customer := { id := 7, userId := 1, totalBookings := 3, lastBooking := none }

/-- The same day-hours entry on every weekday. -/
def bhAll (d : DayHours) : BusinessHours := ⟨d, d, d, d, d, d, d⟩

/-- Provider 1, closed every day (09:00–17:00 template, `isOpen: false`). -/
def uClosed : User := { id := 1, businessHours := bhAll ⟨some 540, some 1020, false⟩ }

/-- Provider 1, open 09:00–10:00 every day. -/
def uFull : User := { id := 1, businessHours := bhAll ⟨some 540, some 600, true⟩ }

/-- Provider 1, open 09:00–17:00 every day. -/
def uOpen : User := { id := 1, businessHours := bhAll ⟨some 540, some 1020, true⟩ }

/-- The slot list `getAvailableTimeSlots` computes for provider `uOpen` on
day 0 (duration 60) with only the completed `bkDone` on the books. -/
def slotsPastDone : List TimeSlot :=
  match getAvailableTimeSlots (some uOpen) [bkDone] 0 60 with
  | .ok l => l
  | .error _ => []

/-- A booking as it sits in the collection: its datetimes were computed at
save time and span a positive interval (`duration` has schema minimum
15). -/
def storedOk (o : Booking) : Bool :=
  match o.startDateTime, o.endDateTime with
  | some os, some oe => os < oe
  | _, _ => false

theorem storedOk_elim {o : Booking} (h : storedOk o = true) :
    ∃ os oe, o.startDateTime = some os ∧ o.endDateTime = some oe ∧ os < oe := by
  unfold storedOk at h
  cases h1 : o.startDateTime with
  | none => rw [h1] at h; cases h
  | some os =>
    cases h2 : o.endDateTime with
    | none => rw [h1, h2] at h; cases h
    | some oe =>
      rw [h1, h2] at h
      exact ⟨os, oe, rfl, rfl, by simpa using h⟩

/-- The slot loop's conflict test is exactly half-open overlap with the
booking's stored interval. -/
theorem slotConflict_eq (current slotEnd : Nat) (b : Booking) :
    slotConflict current slotEnd b = bookingOverlaps b current slotEnd := by
  unfold slotConflict bookingOverlaps
  cases b.startDateTime <;> cases b.endDateTime <;> simp

/-- Against a stored booking, the four-case `$or` of `checkConflicts`
agrees with half-open overlap whenever the queried interval is
non-degenerate. -/
theorem conflictCase_eq_overlap {o : Booking} (s e : Nat) (ho : storedOk o = true)
    (hse : s < e) : conflictCase o (some s) (some e) = bookingOverlaps o s e := by
  obtain ⟨os, oe, h1, h2, hlt⟩ := storedOk_elim ho
  rw [Bool.eq_iff_iff]
  simp only [conflictCase, bookingOverlaps, mongoLe, mongoGe, mongoLt, mongoGt, h1, h2,
    Bool.or_eq_true, Bool.and_eq_true, decide_eq_true_eq]
  omega

/-- Against a stored booking, every branch of the four-case `$or` compares
a `Date` with `null` when the querying document's datetimes are unset, so
nothing matches. -/
theorem conflictCase_none {o : Booking} (ho : storedOk o = true) :
    conflictCase o none none = false := by
  obtain ⟨os, oe, h1, h2, _⟩ := storedOk_elim ho
  simp [conflictCase, mongoLe, mongoGe, mongoLt, mongoGt, h1, h2]

/-- Over a collection of stored bookings, `checkConflicts` is the filter
by half-open overlap. -/
theorem checkConflicts_eq (db : List Booking) (uid id s e : Nat)
    (hwf : ∀ o ∈ db, storedOk o = true) (hse : s < e) :
    checkConflicts db uid id (some s) (some e) =
      db.filter fun o =>
        o.userId == uid && o.id != id && o.status.isActive && bookingOverlaps o s e := by
  unfold checkConflicts
  refine List.filter_congr fun o ho => ?_
  rw [conflictCase_eq_overlap s e (hwf o ho) hse]

/-- Querying with unset datetimes finds nothing in a collection of stored
bookings. -/
theorem checkConflicts_none (db : List Booking) (uid id : Nat)
    (hwf : ∀ o ∈ db, storedOk o = true) :
    checkConflicts db uid id none none = [] := by
  unfold checkConflicts
  rw [List.filter_eq_nil_iff]
  intro o ho
  simp [conflictCase_none (hwf o ho)]

theorem dayStart_add_mod (d : Nat) : dayStart d + d % 1440 = d := by
  unfold dayStart; omega

theorem dayStart_dayStart (d : Nat) : dayStart (dayStart d) = dayStart d := by
  unfold dayStart; omega

/-- Membership in the slot loop, provided the fuel covers the remaining
iterations: the slots are exactly the 30-minute multiples from `current`
that end by `close` and clash with no booking in `ex`. -/
theorem slotLoopAux_mem (duration : Nat) (ex : List Booking) (close : Nat) (t : TimeSlot) :
    ∀ fuel current, close ≤ current + fuel →
      (t ∈ slotLoopAux duration ex close fuel current ↔
        ∃ k, t.startTime = current + 30 * k ∧ t.startTime < close ∧
          t.endTime = t.startTime + duration ∧ t.endTime ≤ close ∧
          ∀ b ∈ ex, bookingOverlaps b t.startTime t.endTime = false) := by
  intro fuel
  induction fuel with
  | zero =>
    intro current hf
    simp only [slotLoopAux, List.not_mem_nil, false_iff]
    rintro ⟨k, hk, hlt, -, -, -⟩
    omega
  | succ n ih =>
    intro current hf
    by_cases hc : current < close
    · rw [slotLoopAux, if_pos hc]
      rw [List.mem_append]
      rw [ih (current + 30) (by omega)]
      constructor
      · rintro (hhead | ⟨k, hk, hlt, hend, hcl, hconf⟩)
        · rw [List.mem_ite_nil_right, List.mem_singleton] at hhead
          obtain ⟨hkeep, ht⟩ := hhead
          subst ht
          simp only [Bool.and_eq_true, Bool.not_eq_true', decide_eq_true_eq] at hkeep
          refine ⟨0, by simp, by simpa using hc, rfl, by simpa using hkeep.2, ?_⟩
          intro b hb
          have h5 := List.any_eq_false.mp hkeep.1 b hb
          simpa [slotConflict_eq] using h5
        · exact ⟨k + 1, by omega, hlt, hend, hcl, hconf⟩
      · rintro ⟨k, hk, hlt, hend, hcl, hconf⟩
        cases k with
        | zero =>
          left
          rw [List.mem_ite_nil_right, List.mem_singleton]
          have hts : t.startTime = current := by omega
          constructor
          · simp only [Bool.and_eq_true, Bool.not_eq_true', decide_eq_true_eq]
            refine ⟨?_, by omega⟩
            rw [List.any_eq_false]
            intro b hb
            have h5 := hconf b hb
            rw [hend, hts] at h5
            simp [slotConflict_eq, h5]
          · cases t
            simp only [TimeSlot.mk.injEq]
            simp only at hts hend
            omega
        | succ k' =>
          right
          exact ⟨k', by omega, hlt, hend, hcl, hconf⟩
    · rw [slotLoopAux, if_neg hc]
      simp only [List.not_mem_nil, false_iff]
      rintro ⟨k, hk, hlt, -, -, -⟩
      omega


/-- `validateBooking` passes exactly when the time is a valid `HH:MM`
minute, the duration meets the minimum, and both datetimes are set. -/
theorem validateBooking_eq_nil {b : Booking} :
    validateBooking b = [] ↔
      b.time < 1440 ∧ 15 ≤ b.duration ∧
        b.startDateTime.isSome = true ∧ b.endDateTime.isSome = true := by
  unfold validateBooking
  split_ifs with h1 h2 h3 h4 <;>
    simp_all [Option.isNone_iff_eq_none, Option.isSome_iff_ne_none]

/-- C4: for well-formed intervals `a` (the proposal) and `b` (an existing
booking), the conflict detector's four-case disjunction — with its exact
mix of strict and non-strict comparisons — holds iff the single symmetric
half-open predicate `a.start < b.end AND b.start < a.end` holds. -/
theorem four_cases_iff_spec_overlaps (a b : TimeInterval)
    (ha : a.start < a.stop) (hb : b.start < b.stop) :
    (overlapCases b.start b.stop a.start a.stop = true ↔ specOverlaps a b = true) := by
  simp only [overlapCases, specOverlaps, Bool.or_eq_true, Bool.and_eq_true,
    decide_eq_true_eq]
  omega

theorem four_cases_iff_spec_overlaps_witness :
    ((540 : Nat) < 600 ∧ (570 : Nat) < 630) ∧
      (overlapCases 570 630 540 600 = true ↔
        specOverlaps ⟨540, 600⟩ ⟨570, 630⟩ = true) :=
  ⟨by decide, four_cases_iff_spec_overlaps ⟨540, 600⟩ ⟨570, 630⟩ (by decide) (by decide)⟩
/-- C2 (amended): `reschedule` never rejects.  For every new start it
succeeds, stashing the previous interval in
`originalStartDateTime`/`originalEndDateTime`, setting the new interval
from the unchanged duration, recording the reschedule metadata, and
leaving `status` unchanged — regardless of any overlap with other
bookings. -/
theorem reschedule_never_rejects (db : List Booking) (b : Booking) (newStart : Nat)
    (reason : String) (actor : Rescheduler) (now : Nat) (hdur : 15 ≤ b.duration) :
    ∃ b', reschedule db b newStart reason actor now = .ok b' ∧
      b'.originalStartDateTime = b.startDateTime ∧
      b'.originalEndDateTime = b.endDateTime ∧
      b'.startDateTime = some newStart ∧
      b'.endDateTime = some (newStart + b.duration) ∧
      b'.status = b.status ∧
      b'.rescheduledAt = some now ∧
      b'.rescheduledBy = some actor ∧
      b'.rescheduleReason = some reason := by
  have hmod : newStart % 1440 < 1440 := Nat.mod_lt _ (by norm_num)
  simp only [reschedule, save]
  split
  case isTrue hv =>
    refine ⟨_, rfl, ?_⟩
    unfold preSave
    split <;> split <;> simp [dayStart_dayStart, dayStart_add_mod]
  case isFalse hv =>
    exact absurd (validateBooking_eq_nil.mpr
      ⟨by simpa using hmod, by simpa using hdur, by simp, by simp⟩) hv
theorem reschedule_never_rejects_witness :
    (15 ≤ bkB.duration) ∧
      (∃ b', reschedule [bkA, bkB] bkB 600 "moved" Rescheduler.user 1000 = .ok b' ∧
        b'.originalStartDateTime = bkB.startDateTime ∧
        b'.originalEndDateTime = bkB.endDateTime ∧
        b'.startDateTime = some 600 ∧
        b'.endDateTime = some (600 + bkB.duration) ∧
        b'.status = bkB.status ∧
        b'.rescheduledAt = some 1000 ∧
        b'.rescheduledBy = some Rescheduler.user ∧
        b'.rescheduleReason = some "moved") :=
  ⟨by decide, reschedule_never_rejects [bkA, bkB] bkB 600 "moved" Rescheduler.user 1000 (by decide)⟩

/-- C2 counterexample: moving `bkB` onto 10:00–11:00 — which overlaps the
non-cancelled `bkA` of the same provider — succeeds and modifies the
booking, instead of rejecting and leaving it unmodified. -/
theorem reschedule_accepts_conflicting_move :
    reschedule [bkA, bkB] bkB 600 "moved" Rescheduler.user 1000 = .ok bkBMoved ∧
    bkBMoved ≠ bkB ∧
    bkA.userId = bkB.userId ∧ bkA.status ≠ Status.cancelled ∧
    bookingOverlaps bkA 600 (600 + bkB.duration) = true := by decide

/-- C1 (amended): a successful `reschedule` does not guarantee the
provider's non-cancelled bookings stay overlap-free; it only records
overlaps in the saved booking's `hasConflicts`/`conflictsWith` cache —
and only when the move actually changes the stored `startDateTime`
(otherwise mongoose marks nothing and the hook skips the refresh, keeping
the previous cache).  Under that proviso, `hasConflicts` is set iff the
new interval overlaps another pending/confirmed/in-progress booking of
the provider. -/
theorem reschedule_overlap_cache (db : List Booking) (b b' : Booking)
    (newStart : Nat) (reason : String) (actor : Rescheduler) (now : Nat)
    (hwf : ∀ o ∈ db, storedOk o = true)
    (hchange : b.startDateTime ≠ some newStart)
    (hok : reschedule db b newStart reason actor now = .ok b') :
    (b'.hasConflicts = true ↔
      ∃ o ∈ db, o.userId = b.userId ∧ o.id ≠ b.id ∧ o.status.isActive = true ∧
        bookingOverlaps o newStart (newStart + b.duration) = true) := by
  simp only [reschedule, save] at hok
  split at hok
  case isFalse => exact absurd hok (by simp)
  case isTrue hv =>
    have hdur : 15 ≤ b.duration := (validateBooking_eq_nil.mp hv).2.1
    have hsm : (b.startDateTime != some newStart) = true := bne_iff_ne.mpr hchange
    rw [Except.ok.injEq] at hok
    subst hok
    unfold preSave
    split <;>
      · simp [hsm, dayStart_dayStart, dayStart_add_mod]
        rw [checkConflicts_eq db b.userId b.id newStart (newStart + b.duration) hwf (by omega)]
        simp [List.filter_eq_nil_iff]

theorem reschedule_overlap_cache_witness :
    (∀ o ∈ [bkA], storedOk o = true) ∧
      bkB.startDateTime ≠ some 600 ∧
      reschedule [bkA] bkB 600 "moved" Rescheduler.user 1000 = .ok bkBMoved ∧
      (bkBMoved.hasConflicts = true ↔
        ∃ o ∈ [bkA], o.userId = bkB.userId ∧ o.id ≠ bkB.id ∧ o.status.isActive = true ∧
          bookingOverlaps o 600 (600 + bkB.duration) = true) :=
  ⟨by decide, by decide, by decide,
    reschedule_overlap_cache [bkA] bkB bkBMoved 600 "moved" Rescheduler.user 1000
      (by decide) (by decide) (by decide)⟩

/-- C1 counterexample: the provider's bookings `bkA` (10:00–11:00) and
`bkB` (14:00–15:00) are overlap-free; rescheduling `bkB` onto 10:00
succeeds, after which two non-cancelled bookings of the provider overlap —
the invariant does not survive a successful Reschedule. -/
theorem reschedule_violates_no_overlap_invariant :
    providerNoOverlap [bkA, bkB] = true ∧
    reschedule [bkA, bkB] bkB 600 "moved" Rescheduler.user 1000 = .ok bkBMoved ∧
    providerNoOverlap [bkA, bkBMoved] = false := by decide
/-- C10 (amended): after a save of a booking whose `date`, `time` or
`duration` was modified (true in particular for new documents, whose
constructor-set paths are all modified), *provided the datetimes were
actually marked modified* — the document is new, they carried an earlier
mark, or one of the hook's two assignments wrote a value differing from
the stored one — the cached `hasConflicts` flag equals whether
`conflictsWith` is non-empty, and `conflictsWith` is exactly the ids of
the provider's other pending/confirmed/in-progress bookings whose
intervals overlap (half-open) the recomputed interval.  When both hook
assignments deep-equal the stored values, the refresh is skipped and the
previous (possibly stale) cache survives. -/
theorem presave_cache_exact (db : List Booking) (b b' : Booking) (f : ModifiedFlags)
    (hmod : (f.dateM || f.timeM || f.durationM) = true)
    (hmark : (f.isNew || f.startM || hookStartMark b || f.endM || hookEndMark b) = true)
    (hwf : ∀ o ∈ db, storedOk o = true)
    (hok : save db b f = .ok b') :
    b'.hasConflicts =
      !(db.filter fun o => o.userId == b.userId && o.id != b.id && o.status.isActive &&
          bookingOverlaps o (dayStart b.date + b.time) (dayStart b.date + b.time + b.duration)).isEmpty ∧
    b'.conflictsWith =
      (db.filter fun o => o.userId == b.userId && o.id != b.id && o.status.isActive &&
          bookingOverlaps o (dayStart b.date + b.time) (dayStart b.date + b.time + b.duration)).map (·.id) := by
  simp only [save] at hok
  split at hok
  case isFalse => exact absurd hok (by simp)
  case isTrue hv =>
    have hdur : 15 ≤ b.duration := (validateBooking_eq_nil.mp hv).2.1
    rw [Except.ok.injEq] at hok
    subst hok
    have hcc := checkConflicts_eq db b.userId b.id (dayStart b.date + b.time)
      (dayStart b.date + b.time + b.duration) hwf (by omega)
    simp [preSave, hmod, hmark, hcc]

theorem presave_cache_exact_witness :
    (((ModifiedFlags.mk false true false false false false).dateM ||
      (ModifiedFlags.mk false true false false false false).timeM ||
      (ModifiedFlags.mk false true false false false false).durationM) = true) ∧
    (((ModifiedFlags.mk false true false false false false).isNew ||
      (ModifiedFlags.mk false true false false false false).startM ||
      hookStartMark bkC ||
      (ModifiedFlags.mk false true false false false false).endM ||
      hookEndMark bkC) = true) ∧
    (∀ o ∈ [bkA], storedOk o = true) ∧
    save [bkA] bkC ⟨false, true, false, false, false, false⟩ = .ok bkCAfter ∧
    (bkCAfter.hasConflicts =
      !([bkA].filter fun o => o.userId == bkC.userId && o.id != bkC.id && o.status.isActive &&
          bookingOverlaps o (dayStart bkC.date + bkC.time)
            (dayStart bkC.date + bkC.time + bkC.duration)).isEmpty ∧
    bkCAfter.conflictsWith =
      ([bkA].filter fun o => o.userId == bkC.userId && o.id != bkC.id && o.status.isActive &&
          bookingOverlaps o (dayStart bkC.date + bkC.time)
            (dayStart bkC.date + bkC.time + bkC.duration)).map (·.id)) :=
  ⟨by decide, by decide, by decide, by decide,
    presave_cache_exact [bkA] bkC bkCAfter ⟨false, true, false, false, false, false⟩
      (by decide) (by decide) (by decide) (by decide)⟩

/-- C10 counterexample: a `PUT` on `bkSkip` (10:00–11:00, midnight `date`,
empty cache) supplying `date := 600` — the old start instant — and
`time := 660` modifies both `date` and `time`, and the save recomputes
the interval to 11:00–12:00; but the hook's two assignments write values
deep-equal to the stored datetimes (600 and 660), so mongoose marks
neither path, the refresh is skipped, and the saved booking keeps
`hasConflicts = false`, `conflictsWith = []` even though the pending
`bkEve` (11:00–12:00) of the same provider overlaps the recomputed
interval exactly. -/
theorem stale_cache_after_equal_assignments :
    bkSkip.date ≠ 600 ∧ bkSkip.time ≠ 660 ∧
    updateBooking [bkEve] bkSkip (some 600) (some 660) none = .ok bkSkipAfter ∧
    bkSkipAfter.startDateTime = some 660 ∧ bkSkipAfter.endDateTime = some 720 ∧
    bkEve.userId = bkSkip.userId ∧ bkEve.id ≠ bkSkip.id ∧ bkEve.status.isActive = true ∧
    bookingOverlaps bkEve 660 720 = true ∧
    bkSkipAfter.hasConflicts = false ∧ bkSkipAfter.conflictsWith = [] := by decide
/-- C3: authenticated booking creation never succeeds and never returns a
conflict error: the route-level `checkConflicts()` runs before the
pre-save hook has computed `startDateTime`/`endDateTime`, so it queries
`null` operands and matches nothing, and the subsequent `save()` fails
validation on the still-unset required datetimes — here evaluated at a
conflict-free request (empty collection, valid service and customer). -/
theorem create_always_fails_validation :
    createBooking [] [cust1] [svc1] 1 99 7 5 28494720 600 28494000 =
      .error (.validation ["startDateTime", "endDateTime"]) := by decide

/-- C9 (amended): creation performs no past-date validation.  A request
whose date lies in the past (`date < now`) is not rejected for that
reason; like every creation request it fails at save with the generic
required-field validation error naming `startDateTime`/`endDateTime`
(the route's conflict query having already run). -/
theorem create_past_date_not_validated (db : List Booking) (customers : List Customer)
    (services : List Service) (uid newId customerId serviceId date time now : Nat)
    (c : Customer) (svc : Service)
    (hwf : ∀ o ∈ db, storedOk o = true)
    (hc : customers.find? (fun x => x.id == customerId && x.userId == uid) = some c)
    (hs : services.find? (fun s => s.id == serviceId && s.userId == uid) = some svc)
    (_hpast : date < now) (htime : time < 1440) (hdur : 15 ≤ svc.duration) :
    createBooking db customers services uid newId customerId serviceId date time now =
      .error (.validation ["startDateTime", "endDateTime"]) := by
  simp only [createBooking, hc, hs]
  rw [checkConflicts_none db uid newId hwf]
  simp [save, validateBooking, Nat.not_le.mpr htime, Nat.not_lt.mpr hdur]

theorem create_past_date_not_validated_witness :
    ((∀ o ∈ ([] : List Booking), storedOk o = true) ∧
      [cust1].find? (fun x => x.id == 7 && x.userId == 1) = some cust1 ∧
      [svc1].find? (fun s => s.id == 5 && s.userId == 1) = some svc1 ∧
      (1000 : Nat) < 28494000 ∧ (600 : Nat) < 1440 ∧ 15 ≤ svc1.duration) ∧
    createBooking [] [cust1] [svc1] 1 98 7 5 1000 600 28494000 =
      .error (.validation ["startDateTime", "endDateTime"]) :=
  ⟨by decide,
    create_past_date_not_validated [] [cust1] [svc1] 1 98 7 5 1000 600 28494000 cust1 svc1
      (by decide) (by decide) (by decide) (by decide) (by decide) (by decide)⟩

/-- C9 counterexample: a creation request dated in the past (minute 1000,
with `now` far later) is indeed rejected — but by the generic
required-field validation on `startDateTime`/`endDateTime`, which does not
name the offending `date` field, and the route's conflict query has
already executed by then. -/
theorem past_date_rejection_names_wrong_field :
    createBooking [] [cust1] [svc1] 1 97 7 5 1000 600 28494000 =
      .error (.validation ["startDateTime", "endDateTime"]) ∧
    (1000 : Nat) < 28494000 ∧
    "date" ∉ ["startDateTime", "endDateTime"] := by decide
/-- C5 (amended): the status-update route performs no transition
validation: for a status-only update request, any of the five enum
statuses is accepted from any current status, and the stored status is
simply overwritten. -/
theorem status_update_unvalidated (db : List Booking) (b : Booking) (s : Status)
    (htime : b.time < 1440) (hdur : 15 ≤ b.duration)
    (hstart : b.startDateTime.isSome = true) (hend : b.endDateTime.isSome = true) :
    updateBooking db b none none (some s) = .ok { b with status := s } := by
  have hv : validateBooking { b with status := s } = [] :=
    validateBooking_eq_nil.mpr ⟨htime, hdur, hstart, hend⟩
  simp [updateBooking, save, hv, preSave]

theorem status_update_unvalidated_witness :
    (bkA.time < 1440 ∧ 15 ≤ bkA.duration ∧
      bkA.startDateTime.isSome = true ∧ bkA.endDateTime.isSome = true) ∧
    updateBooking [] bkA none none (some Status.confirmed) =
      .ok { bkA with status := Status.confirmed } :=
  ⟨by decide,
    status_update_unvalidated [] bkA Status.confirmed
      (by decide) (by decide) (by decide) (by decide)⟩

/-- C5 counterexample: a status-update request asking to move the
completed booking `bkDone` back to `pending` — a transition the state
machine forbids (completed is terminal) — is accepted, and the stored
status changes. -/
theorem status_update_accepts_completed_to_pending :
    bkDone.status = Status.completed ∧
    updateBooking [] bkDone none none (some Status.pending) =
      .ok { bkDone with status := Status.pending } := by decide

/-- C6 (amended): on a day whose working-hours template says
`isOpen: false`, `getAvailableTimeSlots` returns the plain empty list —
the same value an open but fully booked day produces; no distinct
closed-day signal exists. -/
theorem closed_day_returns_empty_list (user : User) (db : List Booking)
    (date duration : Nat)
    (hclosed : (user.businessHours.day (dayOfWeek date)).isOpen = false) :
    getAvailableTimeSlots (some user) db date duration = .ok [] := by
  simp [getAvailableTimeSlots, hclosed]

theorem closed_day_returns_empty_list_witness :
    ((uClosed.businessHours.day (dayOfWeek 0)).isOpen = false) ∧
    getAvailableTimeSlots (some uClosed) [] 0 60 = .ok [] :=
  ⟨by decide, closed_day_returns_empty_list uClosed [] 0 60 (by decide)⟩

/-- C6 counterexample: the closed-day result (`uClosed`, closed with a
09:00–17:00 template) equals the result for an open but fully booked day
(`uFull`, open 09:00–10:00 with pending booking `bkNine` covering it) —
both are the bare `.ok []`, so the two conditions are not
distinguishable. -/
theorem closed_day_indistinguishable_from_fully_booked :
    getAvailableTimeSlots (some uClosed) [] 0 60 = .ok [] ∧
    getAvailableTimeSlots (some uFull) [bkNine] 0 60 = .ok [] ∧
    getAvailableTimeSlots (some uClosed) [] 0 60 =
      getAvailableTimeSlots (some uFull) [bkNine] 0 60 := by decide
/-- C7 (amended): on an open day with `start`/`end` set, a slot is
returned iff it starts a multiple of 30 minutes after open, starts before
close, ends exactly `duration` later and no later than close, and
overlaps none of the provider's *pending/confirmed/in-progress* bookings
of that day (half-open, so candidates ending at close, starting at an
existing booking's end, or ending at an existing booking's start are
returned; completed bookings — though non-cancelled — are not consulted). -/
theorem available_slots_characterization (u : User) (db : List Booking) (date duration : Nat)
    (sTod eTod : Nat) (t : TimeSlot)
    (hopen : (u.businessHours.day (dayOfWeek date)).isOpen = true)
    (hs : (u.businessHours.day (dayOfWeek date)).start = some sTod)
    (he : (u.businessHours.day (dayOfWeek date)).stop = some eTod) :
    ∃ slots, getAvailableTimeSlots (some u) db date duration = .ok slots ∧
      (t ∈ slots ↔
        ∃ k, t.startTime = dayStart date + sTod + 30 * k ∧
          t.startTime < dayStart date + eTod ∧
          t.endTime = t.startTime + duration ∧
          t.endTime ≤ dayStart date + eTod ∧
          ∀ b ∈ db, b.userId = u.id →
            mongoGe b.startDateTime (some (dayStart date)) = true →
            mongoLe b.startDateTime (some (dayStart date + 1439)) = true →
            b.status.isActive = true →
            bookingOverlaps b t.startTime t.endTime = false) := by
  have hres : getAvailableTimeSlots (some u) db date duration =
      .ok (slotLoop (dayStart date + sTod) (dayStart date + eTod) duration
        (db.filter fun b => b.userId == u.id &&
          mongoGe b.startDateTime (some (dayStart date)) &&
          mongoLe b.startDateTime (some (dayStart date + 1439)) && b.status.isActive)) := by
    simp [getAvailableTimeSlots, hopen, hs, he]
  refine ⟨_, hres, ?_⟩
  rw [slotLoop]
  rw [slotLoopAux_mem duration _ (dayStart date + eTod) t _ (dayStart date + sTod) (by omega)]
  apply exists_congr
  intro k
  refine and_congr_right fun _ => and_congr_right fun _ => and_congr_right fun _ =>
    and_congr_right fun _ => ?_
  constructor
  · intro h b hb h1 h2 h3 h4
    exact h b (List.mem_filter.mpr ⟨hb, by simp [h1, h2, h3, h4]⟩)
  · intro h b hb
    obtain ⟨hb', hp⟩ := List.mem_filter.mp hb
    simp only [Bool.and_eq_true, beq_iff_eq] at hp
    exact h b hb' hp.1.1.1 hp.1.1.2 hp.1.2 hp.2

theorem available_slots_characterization_witness :
    ((uOpen.businessHours.day (dayOfWeek 0)).isOpen = true ∧
      (uOpen.businessHours.day (dayOfWeek 0)).start = some 540 ∧
      (uOpen.businessHours.day (dayOfWeek 0)).stop = some 1020) ∧
    (∃ slots, getAvailableTimeSlots (some uOpen) [bkNine] 0 60 = .ok slots ∧
      (TimeSlot.mk 600 660 ∈ slots ↔
        ∃ k, (TimeSlot.mk 600 660).startTime = dayStart 0 + 540 + 30 * k ∧
          (TimeSlot.mk 600 660).startTime < dayStart 0 + 1020 ∧
          (TimeSlot.mk 600 660).endTime = (TimeSlot.mk 600 660).startTime + 60 ∧
          (TimeSlot.mk 600 660).endTime ≤ dayStart 0 + 1020 ∧
          ∀ b ∈ [bkNine], b.userId = uOpen.id →
            mongoGe b.startDateTime (some (dayStart 0)) = true →
            mongoLe b.startDateTime (some (dayStart 0 + 1439)) = true →
            b.status.isActive = true →
            bookingOverlaps b (TimeSlot.mk 600 660).startTime
              (TimeSlot.mk 600 660).endTime = false)) :=
  ⟨⟨by decide, by decide, by decide⟩,
    available_slots_characterization uOpen [bkNine] 0 60 540 1020 ⟨600, 660⟩
      (by decide) (by decide) (by decide)⟩

/-- C7 counterexample: with the provider open 09:00–17:00 and a *completed*
(hence non-cancelled) booking `bkDone` at 09:00–10:00 that day, the
09:00–10:00 candidate is still returned — it overlaps a non-cancelled
booking, because the slot query only consults
pending/confirmed/in-progress bookings. -/
theorem completed_booking_overlap_slot_returned :
    TimeSlot.mk 540 600 ∈ slotsPastDone ∧
    bkDone.userId = uOpen.id ∧
    bkDone.status ≠ Status.cancelled ∧
    mongoGe bkDone.startDateTime (some (dayStart 0)) = true ∧
    mongoLe bkDone.startDateTime (some (dayStart 0 + 1439)) = true ∧
    bookingOverlaps bkDone 540 600 = true := by decide

/-- C8: the spec's recommendation example — provider open 09:00–17:00, one
existing booking 12:00–13:00, 60-minute service, customer with three prior
10:00 bookings — does not produce a ranked list at all: the engine reads
`businessHours.open`/`businessHours.close` (the schema stores
`start`/`end`) so slot generation throws, and the caught exception yields
the `type: 'error'` response with an empty recommendation list. -/
theorem recommendations_error_on_spec_example :
    getRuleBasedRecommendations [bkNoon, bkHist 0, bkHist 1, bkHist 2] uOpen 7 60 0 none =
      { rtype := "error", recommendations := [], totalAvailable := none,
        message := none, errorMsg := some "Unable to generate recommendations" } := by decide
